import Mathlib

/-!
Shallow embedding of `src/WESO25_Code_Refactored.ino` (wind-turbine pitch
controller).  C `float` arithmetic is modelled exactly over `ℚ`; C `int`
over `ℤ`; `unsigned long` over `ℕ` with explicit reduction modulo `2^32`
where the code relies on unsigned wraparound.  The asynchronous pulse ISR
is modelled as an optional pulse event delivered at the top of a loop
iteration (it only writes `pulseInterval` / `pulseReceived`, which the
main loop reads nowhere else).
-/

namespace WESO

/-! ### Compile-time constants (lines 4-45 of the sketch) -/

/-- Source line 17: `const int stepSize = 1;`. -/
def stepSize : ℤ := 1

/-- Source line 18: `const int actuatorMin = 47;`. -/
def actuatorMin : ℤ := 47

/-- Source line 19: `const int actuatorMax = 71;`. -/
def actuatorMax : ℤ := 71

/-- Source line 28: `const int numSamples = 10;`. -/
def numSamples : ℕ := 10

/-- Source line 35: `const unsigned long updateInterval = 100;`. -/
def updateInterval : ℕ := 100

/-- Source line 39: `const float maxShaftRPM = 1750.0;`. -/
def maxShaftRPM : ℚ := 1750

/-- Source line 40: `const float minValidRPM = 0.0;`. -/
def minValidRPM : ℚ := 0

/-- Source line 41: `const float maxValidRPM = 5000.0;`. -/
def maxValidRPM : ℚ := 5000

/-- The literal initializer written at source line 5
(`const int loadThreshold = 11.90;`): the right-hand side as written. -/
def loadThresholdInit : ℚ := 1190 / 100

/-- Source line 5: `const int loadThreshold = 11.90;`.  The variable is
declared `int`, so C++ truncates the initializer `11.90` toward zero
(for this positive value, the floor): the stored threshold is `11`,
not `11.90`. -/
def loadThreshold : ℤ := ⌊loadThresholdInit⌋

/-! ### Program state

All globals mutated by `loop`, `handleRPMUpdates` and `pulseISR`.
`servo` records the last value passed to `actuator.write` (the actuator
drive is open-loop: the sketch trusts its own last command,
lines 59/141/192). -/

structure State where
  rpm : ℚ
  rpmSamples : List ℚ
  sampleIndex : ℕ
  lastRPM : ℚ
  lastUpdateTime : ℕ
  movingUp : Bool
  actuatorPosition : ℤ
  braking : Bool
  estopEngaged : Bool
  pulseReceived : Bool
  pulseInterval : ℕ
  servo : ℤ
  deriving Repr, DecidableEq

/-- Globals after `setup()` has run (lines 10-64): `rpm = 0.0`,
`rpmSamples` pre-filled with zeros, `sampleIndex = 0`, `lastRPM = 0.0`,
`lastUpdateTime = 0`, `movingUp = true`, `actuatorPosition = 56`,
`braking = false`, `estopEngaged = false`, no pulse pending, and the
actuator written with the initial position (line 59). -/
def initState : State :=
  { rpm := 0
    rpmSamples := List.replicate numSamples 0
    sampleIndex := 0
    lastRPM := 0
    lastUpdateTime := 0
    movingUp := true
    actuatorPosition := 56
    braking := false
    estopEngaged := false
    pulseReceived := false
    pulseInterval := 0
    servo := 56 }

/-! ### RPM estimator (`handleRPMUpdates`, lines 66-95) -/

/-- Source line 74, `float newRPM = 60000000.0 / interval;`, for a
nonzero interval in microseconds. -/
def instantRPM (interval : ℕ) : ℚ := 60000000 / interval

/-- Function `handleRPMUpdates()` (lines 66-95): if a pulse is pending,
copy the interval and clear the flag (the `noInterrupts`/`interrupts`
critical section, lines 68-71); for a nonzero interval compute the
instantaneous RPM, and when it passes the sanity check write it into the
ring buffer, advance the cursor modulo `numSamples`, and recompute the
moving average over the updated buffer.  Out-of-range readings are
dropped with no state change beyond the cleared flag. -/
def handleRPMUpdates (s : State) : State :=
  if s.pulseReceived then
    let interval := s.pulseInterval
    let s1 : State := { s with pulseReceived := false }
    if interval > 0 then
      let newRPM := instantRPM interval
      if minValidRPM < newRPM ∧ newRPM < maxValidRPM then
        let samples := s1.rpmSamples.set s1.sampleIndex newRPM
        let sum := samples.foldl (· + ·) 0
        { s1 with
            rpmSamples := samples
            sampleIndex := (s1.sampleIndex + 1) % numSamples
            rpm := sum / (numSamples : ℚ) }
      else s1
    else s1
  else s

/-! ### Safety-monitor voltage computation (lines 107-112) -/

/-- Source line 109, `float Vmeasured = reading / 1024.0 * 5;`, from the
raw 0-1023 ADC reading. -/
def Vmeasured (reading : ℕ) : ℚ := (reading : ℚ) / 1024 * 5

/-- Source line 110: `float Vload = Vmeasured / 0.3125;`. -/
def Vload (reading : ℕ) : ℚ := Vmeasured reading / (3125 / 10000)

/-- Source line 112: `bool loadConnected = Vload < loadThreshold;`.
The comparison is against the stored `int` threshold. -/
def loadConnected (reading : ℕ) : Bool := Vload reading < (loadThreshold : ℚ)

/-- Stop condition of the interlock block, source line 120:
`(!loadConnected || digitalRead(estopPin) == HIGH)`.  It is written in
the source but the whole block (lines 119-131) is inside a `/* ... */`
comment, so the shipped loop never evaluates it. -/
def shouldStop (reading : ℕ) (ePinHigh : Bool) : Bool :=
  !loadConnected reading || ePinHigh

/-! ### Optimizer tick (lines 150-198) -/

/-- Condition of the overspeed branch at source line 153:
`rpm > maxShaftRPM`. -/
def overspeedBranch (s : State) : Bool := s.rpm > maxShaftRPM

/-- Direction after the three-way branch (lines 153-186): unchanged in
the overspeed branch and in the improving branch; flipped (line 176) in
the reverse branch. -/
def newMovingUp (s : State) : Bool :=
  if s.rpm > maxShaftRPM then s.movingUp
  else if s.rpm > s.lastRPM then s.movingUp
  else !s.movingUp

/-- Tentative actuator position computed by the three-way branch
(lines 153-186), before the bound at lines 188-190: overspeed always
adds `stepSize` (line 156); improving moves in the recorded direction
(lines 162-170); otherwise the direction flips first and the move
follows the new direction (lines 176-185). -/
def tentativePosition (s : State) : ℤ :=
  if s.rpm > maxShaftRPM then s.actuatorPosition + stepSize
  else if s.rpm > s.lastRPM then
    if s.movingUp then s.actuatorPosition + stepSize
    else s.actuatorPosition - stepSize
  else
    if !s.movingUp then s.actuatorPosition + stepSize
    else s.actuatorPosition - stepSize

/-- The two sequential bound checks at lines 189-190:
`if (actuatorPosition > actuatorMax) actuatorPosition = actuatorMax;`
then `if (actuatorPosition < actuatorMin) actuatorPosition = actuatorMin;`. -/
def boundPos (p : ℤ) : ℤ :=
  let p1 := if p > actuatorMax then actuatorMax else p
  if p1 < actuatorMin then actuatorMin else p1

/-- Body of the gated optimizer block (lines 153-197), after
`lastUpdateTime` has been stamped: branch, bound, command the actuator
(line 192), and save `lastRPM = rpm` (line 197). -/
def tickBody (s : State) : State :=
  let pos := boundPos (tentativePosition s)
  { s with
      movingUp := newMovingUp s
      actuatorPosition := pos
      servo := pos
      lastRPM := s.rpm }

/-! ### The main loop (lines 97-204) -/

/-- External inputs sampled by one loop iteration: `millis()` (line 100),
the e-stop pin level (line 102), the ADC reading (line 107), and an
optional pulse delivered by `pulseISR` (lines 209-214) since the last
iteration (`none` means no new edge; `some iv` models the ISR having
stored interval `iv` and set `pulseReceived`). -/
structure Input where
  currentTime : ℕ
  ePinHigh : Bool
  reading : ℕ
  pulse : Option ℕ
  deriving Repr, DecidableEq

/-- Effect of `pulseISR` (lines 209-214) on the shared globals when an
edge arrived since the last iteration: store the new interval and set
`pulseReceived`. -/
def pulsePhase (s : State) (inp : Input) : State :=
  match inp.pulse with
  | some iv => { s with pulseInterval := iv, pulseReceived := true }
  | none => s

/-- Unsigned 32-bit subtraction `a - b`, as `unsigned long` arithmetic
computes it at line 150. -/
def usub32 (a b : ℕ) : ℕ := (a % 2 ^ 32 + 2 ^ 32 - b % 2 ^ 32) % 2 ^ 32

/-- Braking block (lines 138-146): when `braking` is set, force the
position to the literal `70`, command the actuator, and clear both
`braking` and `estopEngaged` in the same iteration. -/
def brakingStep (s : State) : State :=
  if s.braking then
    { s with
        actuatorPosition := 70
        servo := 70
        braking := false
        estopEngaged := false }
  else s

/-- Optimizer gate at line 150:
`!braking && !estopEngaged && (currentTime - lastUpdateTime > updateInterval)`. -/
def optimizerGate (s : State) (currentTime : ℕ) : Bool :=
  !s.braking && !s.estopEngaged
    && decide (usub32 currentTime s.lastUpdateTime > updateInterval)

/-- One iteration of `loop()` as shipped (lines 97-204).  The reads at
lines 100-115 have no state effect (`loadConnected` is computed at
line 112 every iteration, but the interlock block that would consume it,
lines 119-131, is commented out); the line-134 comment
`--- Handle RPM updates ---` is followed by no call, so
`handleRPMUpdates` is never invoked.  Then the braking block runs, then
the gated optimizer block, which first stamps
`lastUpdateTime = currentTime` (line 151). -/
def loopIter (s : State) (inp : Input) : State :=
  let s1 := pulsePhase s inp
  let s2 := brakingStep s1
  if optimizerGate s2 inp.currentTime then
    tickBody { s2 with lastUpdateTime := inp.currentTime }
  else s2

/-- The shipped program: `setup()` once, then `loop()` on each element
of the input trace. -/
def run (inputs : List Input) : State := inputs.foldl loopIter initState

/-! ### Concrete states used to instantiate the theorems -/

/-- A single ISR-delivered pulse of interval `iv` followed by one call
to `handleRPMUpdates` (the consume step the spec's scenarios feed). -/
def feedPulse (iv : ℕ) (s : State) : State :=
  handleRPMUpdates { s with pulseReceived := true, pulseInterval := iv }

/-- Startup state with one unconsumed pulse of 34286 microseconds. -/
def pendingPulseState : State :=
  { initState with pulseReceived := true, pulseInterval := 34286 }

/-- Startup state with smoothed RPM just above `maxShaftRPM`. -/
def ovState : State := { initState with rpm := 1751 }

/-- Startup state with smoothed RPM exactly `maxShaftRPM`. -/
def atMaxState : State := { initState with rpm := 1750 }

/-- Improving tick (`rpm > lastRPM`) with the position already at
`actuatorMax` and `movingUp = true`. -/
def hiState : State := { initState with rpm := 100, actuatorPosition := 71 }

/-- Improving tick away from the bounds. -/
def impState : State := { initState with rpm := 100 }

/-- Regressing tick (`rpm = 0 ≤ lastRPM = 50`) away from the bounds. -/
def regState : State := { initState with lastRPM := 50 }

/-- Pending pulse whose RPM passes the sanity check. -/
def acceptState : State :=
  { initState with pulseReceived := true, pulseInterval := 34286 }

/-- Pending pulse of 12000 microseconds: exactly 5000 RPM, which the
strict `< maxValidRPM` check rejects. -/
def rejectState : State :=
  { initState with pulseReceived := true, pulseInterval := 12000 }

/-- State entering an iteration with the braking flag set. -/
def brakingState : State := { initState with braking := true }

/-! ### Helper lemmas about the loop components -/

theorem brakingStep_of_false {s : State} (h : s.braking = false) : brakingStep s = s := by
  simp [brakingStep, h]

theorem brakingStep_of_true {s : State} (h : s.braking = true) :
    brakingStep s =
      { s with actuatorPosition := 70, servo := 70, braking := false, estopEngaged := false } := by
  simp [brakingStep, h]

theorem pulsePhase_ctrl (s : State) (inp : Input) :
    (pulsePhase s inp).rpm = s.rpm ∧ (pulsePhase s inp).lastRPM = s.lastRPM ∧
    (pulsePhase s inp).movingUp = s.movingUp ∧
    (pulsePhase s inp).actuatorPosition = s.actuatorPosition ∧
    (pulsePhase s inp).braking = s.braking ∧
    (pulsePhase s inp).estopEngaged = s.estopEngaged ∧
    (pulsePhase s inp).rpmSamples = s.rpmSamples ∧
    (pulsePhase s inp).sampleIndex = s.sampleIndex := by
  cases hp : inp.pulse <;> simp [pulsePhase, hp]

theorem brakingStep_ctrl (s : State) :
    (brakingStep s).rpm = s.rpm ∧ (brakingStep s).lastRPM = s.lastRPM ∧
    (brakingStep s).movingUp = s.movingUp ∧ (brakingStep s).braking = false ∧
    (brakingStep s).rpmSamples = s.rpmSamples ∧ (brakingStep s).sampleIndex = s.sampleIndex ∧
    ((brakingStep s).actuatorPosition = s.actuatorPosition ∨
      (brakingStep s).actuatorPosition = 70) ∧
    ((brakingStep s).estopEngaged = s.estopEngaged ∨ (brakingStep s).estopEngaged = false) := by
  unfold brakingStep
  split <;> simp_all

theorem loopIter_eq (s : State) (inp : Input) :
    loopIter s inp =
      if optimizerGate (brakingStep (pulsePhase s inp)) inp.currentTime then
        tickBody { brakingStep (pulsePhase s inp) with lastUpdateTime := inp.currentTime }
      else brakingStep (pulsePhase s inp) := rfl

theorem loopIter_zero (s : State) (inp : Input) (h1 : s.rpm = 0) (h2 : s.lastRPM = 0) :
    (loopIter s inp).rpm = 0 ∧ (loopIter s inp).lastRPM = 0 := by
  obtain ⟨p1, p2, -, -, -, -, -, -⟩ := pulsePhase_ctrl s inp
  obtain ⟨b1, b2, -, -, -, -, -, -⟩ := brakingStep_ctrl (pulsePhase s inp)
  rw [loopIter_eq]
  split
  · constructor
    · show (tickBody _).rpm = 0
      simp [tickBody, b1, p1, h1]
    · show (tickBody _).lastRPM = 0
      simp [tickBody, b1, p1, h1]
  · exact ⟨by rw [b1, p1, h1], by rw [b2, p2, h2]⟩

theorem runAux_zero (l : List Input) : ∀ s : State, s.rpm = 0 → s.lastRPM = 0 →
    (l.foldl loopIter s).rpm = 0 ∧ (l.foldl loopIter s).lastRPM = 0 := by
  induction l with
  | nil => exact fun s h1 h2 => ⟨h1, h2⟩
  | cons inp l ih =>
      intro s h1 h2
      have h := loopIter_zero s inp h1 h2
      simpa using ih (loopIter s inp) h.1 h.2

theorem run_zero (l : List Input) : (run l).rpm = 0 ∧ (run l).lastRPM = 0 :=
  runAux_zero l initState rfl rfl

theorem loopIter_flip (s : State) (inp : Input) (h1 : s.rpm = 0) (h2 : s.lastRPM = 0)
    (hg : optimizerGate (brakingStep (pulsePhase s inp)) inp.currentTime = true) :
    (loopIter s inp).movingUp = !s.movingUp := by
  obtain ⟨p1, p2, p3, -, -, -, -, -⟩ := pulsePhase_ctrl s inp
  obtain ⟨b1, b2, b3, -, -, -, -, -⟩ := brakingStep_ctrl (pulsePhase s inp)
  rw [loopIter_eq, if_pos hg]
  show newMovingUp _ = _
  unfold newMovingUp
  have hr : ({ brakingStep (pulsePhase s inp) with
      lastUpdateTime := inp.currentTime } : State).rpm = 0 := by simp [b1, p1, h1]
  have hl : ({ brakingStep (pulsePhase s inp) with
      lastUpdateTime := inp.currentTime } : State).lastRPM = 0 := by simp [b2, p2, h2]
  have hm : ({ brakingStep (pulsePhase s inp) with
      lastUpdateTime := inp.currentTime } : State).movingUp = s.movingUp := by simp [b3, p3]
  rw [hr, hl, hm]
  norm_num [maxShaftRPM]

theorem boundPos_bounds (p : ℤ) :
    actuatorMin ≤ boundPos p ∧ boundPos p ≤ actuatorMax := by
  simp only [boundPos, actuatorMin, actuatorMax]
  split <;> split <;> omega

theorem loopIter_pos (s : State) (inp : Input)
    (h : actuatorMin ≤ s.actuatorPosition ∧ s.actuatorPosition ≤ actuatorMax) :
    actuatorMin ≤ (loopIter s inp).actuatorPosition ∧
    (loopIter s inp).actuatorPosition ≤ actuatorMax := by
  obtain ⟨-, -, -, p4, -, -, -, -⟩ := pulsePhase_ctrl s inp
  obtain ⟨-, -, -, -, -, -, b7, -⟩ := brakingStep_ctrl (pulsePhase s inp)
  rw [loopIter_eq]
  split
  · show actuatorMin ≤ (tickBody _).actuatorPosition ∧ (tickBody _).actuatorPosition ≤ actuatorMax
    show actuatorMin ≤ boundPos _ ∧ boundPos _ ≤ actuatorMax
    exact boundPos_bounds _
  · rcases b7 with hb | hb <;> rw [hb]
    · rw [p4]; exact h
    · norm_num [actuatorMin, actuatorMax]

theorem runAux_pos (l : List Input) : ∀ s : State,
    actuatorMin ≤ s.actuatorPosition ∧ s.actuatorPosition ≤ actuatorMax →
    actuatorMin ≤ (l.foldl loopIter s).actuatorPosition ∧
    (l.foldl loopIter s).actuatorPosition ≤ actuatorMax := by
  induction l with
  | nil => exact fun s h => h
  | cons inp l ih =>
      intro s h
      simpa using ih (loopIter s inp) (loopIter_pos s inp h)

theorem loopIter_estop (s : State) (inp : Input) (he : s.estopEngaged = false) :
    (loopIter s inp).braking = false ∧ (loopIter s inp).estopEngaged = false := by
  obtain ⟨-, -, -, -, -, p6, -, -⟩ := pulsePhase_ctrl s inp
  obtain ⟨-, -, -, b4, -, -, -, b8⟩ := brakingStep_ctrl (pulsePhase s inp)
  rw [loopIter_eq]
  have he2 : (brakingStep (pulsePhase s inp)).estopEngaged = false := by
    rcases b8 with hb | hb
    · rw [hb, p6, he]
    · exact hb
  split
  · exact ⟨by show (brakingStep _).braking = false; exact b4,
      by show (brakingStep _).estopEngaged = false; exact he2⟩
  · exact ⟨b4, he2⟩

theorem runAux_flags (l : List Input) : ∀ s : State, s.estopEngaged = false →
    ((l.foldl loopIter s).braking = false ∧ (l.foldl loopIter s).estopEngaged = false) ∨
    (l = [] ∧ l.foldl loopIter s = s) := by
  induction l with
  | nil => exact fun s _ => Or.inr ⟨rfl, rfl⟩
  | cons inp l ih =>
      intro s he
      left
      have h := loopIter_estop s inp he
      rcases ih (loopIter s inp) h.2 with h2 | h2
      · simpa using h2
      · simp [h2.2, h2.1, h.1, h.2]

theorem run_flags (l : List Input) :
    (run l).braking = false ∧ (run l).estopEngaged = false := by
  rcases runAux_flags l initState rfl with h | h
  · exact h
  · rw [run, h.2]; exact ⟨rfl, rfl⟩

theorem loopIter_never_consumes (s : State) (inp : Input) :
    (loopIter s inp).rpm = s.rpm ∧
    (loopIter s inp).rpmSamples = s.rpmSamples ∧
    (loopIter s inp).sampleIndex = s.sampleIndex ∧
    (loopIter s inp).pulseReceived = (inp.pulse.isSome || s.pulseReceived) := by
  have hpulse : (pulsePhase s inp).pulseReceived = (inp.pulse.isSome || s.pulseReceived) := by
    cases hp : inp.pulse <;> simp [pulsePhase, hp]
  have hpr : (pulsePhase s inp).rpm = s.rpm ∧ (pulsePhase s inp).rpmSamples = s.rpmSamples ∧
      (pulsePhase s inp).sampleIndex = s.sampleIndex := by
    cases hp : inp.pulse <;> simp [pulsePhase, hp]
  have hbs : ∀ t : State, (brakingStep t).rpm = t.rpm ∧
      (brakingStep t).rpmSamples = t.rpmSamples ∧
      (brakingStep t).sampleIndex = t.sampleIndex ∧
      (brakingStep t).pulseReceived = t.pulseReceived := by
    intro t; unfold brakingStep; split <;> simp
  obtain ⟨q1, q2, q3, q4⟩ := hbs (pulsePhase s inp)
  rw [loopIter_eq]
  split
  · refine ⟨?_, ?_, ?_, ?_⟩
    · show (tickBody _).rpm = s.rpm
      simp [tickBody, q1, hpr.1]
    · show (tickBody _).rpmSamples = s.rpmSamples
      simp [tickBody, q2, hpr.2.1]
    · show (tickBody _).sampleIndex = s.sampleIndex
      simp [tickBody, q3, hpr.2.2]
    · show (tickBody _).pulseReceived = _
      simp [tickBody, q4, hpulse]
  · exact ⟨by rw [q1, hpr.1], by rw [q2, hpr.2.1], by rw [q3, hpr.2.2], by rw [q4, hpulse]⟩

theorem feed_full (s : State) (hs : s.rpmSamples = List.replicate 10 (instantRPM 34286))
    (hi : s.sampleIndex < 10) :
    (feedPulse 34286 s).rpmSamples = List.replicate 10 (instantRPM 34286) ∧
    (feedPulse 34286 s).sampleIndex < 10 ∧
    (feedPulse 34286 s).rpm = instantRPM 34286 := by
  interval_cases h : s.sampleIndex <;>
    norm_num [feedPulse, handleRPMUpdates, hs, h, instantRPM, minValidRPM, maxValidRPM,
      numSamples, List.replicate, List.set]

theorem reach10 :
    ((feedPulse 34286)^[10] initState).rpmSamples = List.replicate 10 (instantRPM 34286) ∧
    ((feedPulse 34286)^[10] initState).sampleIndex < 10 ∧
    ((feedPulse 34286)^[10] initState).rpm = instantRPM 34286 := by
  norm_num [feedPulse, handleRPMUpdates, initState, instantRPM, minValidRPM, maxValidRPM,
    numSamples, List.replicate, List.set, Function.iterate_succ_apply, Function.iterate_zero_apply]

theorem steady_from_ten (n : ℕ) (hn : 10 ≤ n) :
    ((feedPulse 34286)^[n] initState).rpmSamples = List.replicate 10 (instantRPM 34286) ∧
    ((feedPulse 34286)^[n] initState).sampleIndex < 10 ∧
    ((feedPulse 34286)^[n] initState).rpm = instantRPM 34286 := by
  induction n, hn using Nat.le_induction with
  | base => exact reach10
  | succ n hn ih =>
      rw [Function.iterate_succ_apply']
      exact feed_full _ ih.1 ih.2.1

/-! ### The claims -/

/-- Claim C1.  The claim states that `handleRPMUpdates` is invoked once
per iteration of the main control loop.  The shipped `loop()` never
calls it: every iteration leaves the smoothed RPM, the sample buffer and
the cursor untouched and never clears `pulseReceived` (the flag only the
consume step would clear), whereas calling `handleRPMUpdates` on a state
with the pending 34286-microsecond pulse would consume the flag and set
the smoothed RPM to a nonzero value. -/
theorem claimC1_rpm_update_missing_from_loop :
    (∀ (s : State) (inp : Input),
      (loopIter s inp).rpm = s.rpm ∧
      (loopIter s inp).rpmSamples = s.rpmSamples ∧
      (loopIter s inp).sampleIndex = s.sampleIndex ∧
      (loopIter s inp).pulseReceived = (inp.pulse.isSome || s.pulseReceived)) ∧
    (handleRPMUpdates pendingPulseState).pulseReceived = false ∧
    (handleRPMUpdates pendingPulseState).rpm = instantRPM 34286 / 10 ∧
    instantRPM 34286 / 10 ≠ 0 := by
  refine ⟨loopIter_never_consumes, ?_, ?_, by norm_num [instantRPM]⟩ <;>
    norm_num [handleRPMUpdates, pendingPulseState, initState, instantRPM, minValidRPM,
      maxValidRPM, numSamples, List.replicate, List.set]

/-- Claim C2.  In every state reachable by the shipped main loop the
smoothed RPM and `lastRPM` are both `0`, and on any iteration that
passes the optimizer gate the `rpm > lastRPM` comparison is `0 > 0`, so
the direction-reversal branch runs and `movingUp` flips. -/
theorem claimC2_degenerate_loop_invariant :
    ∀ (inputs : List Input) (inp : Input),
      (run inputs).rpm = 0 ∧ (run inputs).lastRPM = 0 ∧
      (optimizerGate (brakingStep (pulsePhase (run inputs) inp)) inp.currentTime = true →
        (loopIter (run inputs) inp).movingUp = !(run inputs).movingUp) :=
  fun inputs inp => ⟨(run_zero inputs).1, (run_zero inputs).2,
    fun hg => loopIter_flip _ inp (run_zero inputs).1 (run_zero inputs).2 hg⟩

/-- Claim C2, witness: the first iteration at `millis() = 200` passes
the gate and flips `movingUp` from `true` to `false`. -/
theorem claimC2_degenerate_loop_invariant_witness :
    optimizerGate (brakingStep (pulsePhase (run []) ⟨200, false, 0, none⟩)) 200 = true ∧
    (loopIter (run []) ⟨200, false, 0, none⟩).movingUp = !(run []).movingUp := by
  have hg : optimizerGate (brakingStep (pulsePhase (run []) ⟨200, false, 0, none⟩)) 200 = true := by
    simp [run, initState, pulsePhase, brakingStep, optimizerGate, usub32, updateInterval]
  exact ⟨hg, (claimC2_degenerate_loop_invariant [] ⟨200, false, 0, none⟩).2.2 hg⟩

/-- Claim C3.  In every reachable state — at startup (`run [] = initState`
with position 56), after any braking action, and after every committed
optimizer tick, for any number of consecutive same-direction decisions —
the actuator position lies within `[actuatorMin, actuatorMax] = [47, 71]`. -/
theorem claimC3_actuator_position_bounded (inputs : List Input) :
    actuatorMin ≤ (run inputs).actuatorPosition ∧
    (run inputs).actuatorPosition ≤ actuatorMax :=
  runAux_pos inputs initState (by norm_num [initState, actuatorMin, actuatorMax])

/-- Claim C4, counterexample.  At ADC reading 1023 the load voltage is
about 15.98 V, so `loadConnected` is false and the written should-stop
condition holds; the e-stop pin is also high.  Yet after the iteration
`braking` and `estopEngaged` are still false: the interlock block
(lines 119-131) is commented out, so no tick ever sets them. -/
theorem claimC4_counterexample :
    shouldStop 1023 true = true ∧
    (run [⟨200, true, 1023, none⟩]).braking = false ∧
    (run [⟨200, true, 1023, none⟩]).estopEngaged = false := by
  refine ⟨?_, (run_flags _).1, (run_flags _).2⟩
  norm_num [shouldStop, loadConnected, Vload, Vmeasured, loadThreshold, loadThresholdInit]

/-- Claim C4, amended.  As shipped the safety-monitor interlock block is
commented out: no control tick ever sets `braking` or `estopEngaged`;
both remain false in every reachable state, regardless of the load and
e-stop inputs. -/
theorem claimC4_amended_interlock_inert (inputs : List Input) :
    (run inputs).braking = false ∧ (run inputs).estopEngaged = false :=
  run_flags inputs

/-- Claim C5.  On any tick with `rpm > maxShaftRPM` the pre-clamp
position is the prior position plus `stepSize`, `movingUp` is unchanged
(whatever its prior value and whatever `lastRPM` is), and the committed
position is the clamp of that sum; the overspeed branch is not taken
when `rpm` equals `maxShaftRPM = 1750` exactly. -/
theorem claimC5_overspeed_bias :
    (∀ s : State, s.rpm > maxShaftRPM →
      tentativePosition s = s.actuatorPosition + stepSize ∧
      (tickBody s).movingUp = s.movingUp ∧
      (tickBody s).actuatorPosition = boundPos (s.actuatorPosition + stepSize)) ∧
    (∀ s : State, s.rpm = maxShaftRPM → overspeedBranch s = false) := by
  constructor
  · intro s h
    refine ⟨by simp [tentativePosition, h], ?_, ?_⟩
    · show newMovingUp s = s.movingUp
      simp [newMovingUp, h]
    · show boundPos (tentativePosition s) = _
      simp [tentativePosition, h]
  · intro s h
    simp [overspeedBranch, h]

/-- Claim C5, witness: at `rpm = 1751` the overspeed move applies; at
`rpm = 1750` exactly the branch is not taken. -/
theorem claimC5_overspeed_bias_witness :
    tentativePosition ovState = ovState.actuatorPosition + stepSize ∧
    (tickBody ovState).movingUp = ovState.movingUp ∧
    (tickBody ovState).actuatorPosition = boundPos (ovState.actuatorPosition + stepSize) ∧
    overspeedBranch atMaxState = false := by
  have h1 : ovState.rpm > maxShaftRPM := by norm_num [ovState, initState, maxShaftRPM]
  have h2 : atMaxState.rpm = maxShaftRPM := by norm_num [atMaxState, initState, maxShaftRPM]
  obtain ⟨a, b, c⟩ := claimC5_overspeed_bias.1 ovState h1
  exact ⟨a, b, c, claimC5_overspeed_bias.2 atMaxState h2⟩

/-- Claim C6, counterexample.  On a non-overspeed improving tick
(`rpm = 100 > lastRPM = 0`, `movingUp = true`) with the position already
at `actuatorMax = 71`, the committed position does not move by
`stepSize`: the clamp at lines 189-190 leaves it at 71, refuting the
claim that the position always moves one `stepSize`. -/
theorem claimC6_counterexample :
    ¬(hiState.rpm > maxShaftRPM) ∧ hiState.rpm > hiState.lastRPM ∧ hiState.movingUp = true ∧
    (tickBody hiState).actuatorPosition = hiState.actuatorPosition ∧
    (tickBody hiState).actuatorPosition ≠ hiState.actuatorPosition + stepSize := by
  norm_num [hiState, initState, maxShaftRPM, tickBody, tentativePosition, newMovingUp,
    boundPos, stepSize, actuatorMin, actuatorMax]

/-- Claim C6, amended.  On every non-overspeed tick: if `rpm > lastRPM`
the pre-clamp position moves one `stepSize` in the recorded direction
and `movingUp` is unchanged; otherwise `movingUp` flips and the
pre-clamp position moves one `stepSize` in the new direction; the
committed position is the clamp of the tentative one to
`[actuatorMin, actuatorMax]` (so at a bound it may not move), and in
both cases `lastRPM` is then set to the current `rpm`. -/
theorem claimC6_amended_hill_climb (s : State) (hno : ¬(s.rpm > maxShaftRPM)) :
    (s.rpm > s.lastRPM →
      (tickBody s).movingUp = s.movingUp ∧
      tentativePosition s =
        (if s.movingUp then s.actuatorPosition + stepSize else s.actuatorPosition - stepSize)) ∧
    (¬(s.rpm > s.lastRPM) →
      (tickBody s).movingUp = !s.movingUp ∧
      tentativePosition s =
        (if s.movingUp then s.actuatorPosition - stepSize else s.actuatorPosition + stepSize)) ∧
    (tickBody s).actuatorPosition = boundPos (tentativePosition s) ∧
    (tickBody s).lastRPM = s.rpm := by
  refine ⟨?_, ?_, rfl, rfl⟩
  · intro himp
    refine ⟨?_, by simp [tentativePosition, hno, himp]⟩
    show newMovingUp s = s.movingUp
    simp [newMovingUp, hno, himp]
  · intro hreg
    refine ⟨?_, ?_⟩
    · show newMovingUp s = !s.movingUp
      simp [newMovingUp, hno, hreg]
    · simp only [tentativePosition, if_neg hno, if_neg hreg]
      cases hm : s.movingUp <;> simp

/-- Claim C6, witness: an improving tick keeps direction and tends
upward; a regressing tick flips direction and tends the other way. -/
theorem claimC6_amended_hill_climb_witness :
    ((tickBody impState).movingUp = impState.movingUp ∧
      tentativePosition impState =
        (if impState.movingUp then impState.actuatorPosition + stepSize
          else impState.actuatorPosition - stepSize)) ∧
    ((tickBody regState).movingUp = !regState.movingUp ∧
      tentativePosition regState =
        (if regState.movingUp then regState.actuatorPosition - stepSize
          else regState.actuatorPosition + stepSize)) := by
  have h1 : ¬(impState.rpm > maxShaftRPM) := by norm_num [impState, initState, maxShaftRPM]
  have h2 : impState.rpm > impState.lastRPM := by norm_num [impState, initState]
  have h3 : ¬(regState.rpm > maxShaftRPM) := by norm_num [regState, initState, maxShaftRPM]
  have h4 : ¬(regState.rpm > regState.lastRPM) := by norm_num [regState, initState]
  exact ⟨(claimC6_amended_hill_climb impState h1).1 h2,
    (claimC6_amended_hill_climb regState h3).2.1 h4⟩

/-- Claim C7.  For every consumed nonzero interval the instantaneous RPM
is exactly `60000000 / interval`; the sample is written into the ring
buffer with the cursor advancing modulo `numSamples = 10` exactly when
`minValidRPM < rpm < maxValidRPM`, and a rejected sample leaves the
buffer, the cursor and the smoothed RPM unchanged. -/
theorem claimC7_estimator_accept_reject (s : State) (hp : s.pulseReceived = true)
    (hi : 0 < s.pulseInterval) :
    (minValidRPM < instantRPM s.pulseInterval ∧ instantRPM s.pulseInterval < maxValidRPM →
      (handleRPMUpdates s).rpmSamples =
        s.rpmSamples.set s.sampleIndex (instantRPM s.pulseInterval) ∧
      (handleRPMUpdates s).sampleIndex = (s.sampleIndex + 1) % numSamples) ∧
    (¬(minValidRPM < instantRPM s.pulseInterval ∧ instantRPM s.pulseInterval < maxValidRPM) →
      (handleRPMUpdates s).rpmSamples = s.rpmSamples ∧
      (handleRPMUpdates s).sampleIndex = s.sampleIndex ∧
      (handleRPMUpdates s).rpm = s.rpm) := by
  simp only [handleRPMUpdates, hp, if_true, if_pos hi]
  constructor
  · intro hacc
    rw [if_pos hacc]
    exact ⟨rfl, rfl⟩
  · intro hrej
    rw [if_neg hrej]
    exact ⟨rfl, rfl, rfl⟩

/-- Claim C7, witness: the 34286-microsecond pulse (about 1749.99 RPM)
is accepted and written at the cursor; the 12000-microsecond pulse
(exactly 5000 RPM, not strictly below `maxValidRPM`) is rejected with no
change to buffer, cursor or smoothed RPM. -/
theorem claimC7_estimator_accept_reject_witness :
    ((handleRPMUpdates acceptState).rpmSamples =
        acceptState.rpmSamples.set acceptState.sampleIndex (instantRPM acceptState.pulseInterval) ∧
      (handleRPMUpdates acceptState).sampleIndex = (acceptState.sampleIndex + 1) % numSamples) ∧
    ((handleRPMUpdates rejectState).rpmSamples = rejectState.rpmSamples ∧
      (handleRPMUpdates rejectState).sampleIndex = rejectState.sampleIndex ∧
      (handleRPMUpdates rejectState).rpm = rejectState.rpm) := by
  have ha := claimC7_estimator_accept_reject acceptState rfl (by norm_num [acceptState, initState])
  have hr := claimC7_estimator_accept_reject rejectState rfl (by norm_num [rejectState, initState])
  refine ⟨ha.1 ?_, hr.2 ?_⟩
  · norm_num [acceptState, initState, instantRPM, minValidRPM, maxValidRPM]
  · norm_num [rejectState, initState, instantRPM, minValidRPM, maxValidRPM]

/-- Claim C8.  Whenever `braking` is true at the braking check, the
block forces the position to exactly 70 (distinct from
`actuatorMax = 71`), commands the actuator with it, and both `braking`
and `estopEngaged` are false by the end of the iteration: braking is a
one-shot pulse, not a held state. -/
theorem claimC8_braking_oneshot (s : State) (inp : Input) (hb : s.braking = true) :
    (brakingStep (pulsePhase s inp)).actuatorPosition = 70 ∧
    (brakingStep (pulsePhase s inp)).servo = 70 ∧
    (loopIter s inp).braking = false ∧
    (loopIter s inp).estopEngaged = false ∧
    (70 : ℤ) ≠ actuatorMax := by
  have hpb : (pulsePhase s inp).braking = true := by
    cases hp : inp.pulse <;> simp [pulsePhase, hp, hb]
  have hflags : (loopIter s inp).braking = false ∧ (loopIter s inp).estopEngaged = false := by
    rw [loopIter_eq]
    split
    · constructor
      · show (tickBody _).braking = false
        simp [tickBody, brakingStep_of_true hpb]
      · show (tickBody _).estopEngaged = false
        simp [tickBody, brakingStep_of_true hpb]
    · simp [brakingStep_of_true hpb]
  rw [brakingStep_of_true hpb]
  exact ⟨rfl, rfl, hflags.1, hflags.2, by norm_num [actuatorMax]⟩

/-- Claim C8, witness: entering an iteration with `braking = true`
commands the actuator to 70 and leaves both flags cleared. -/
theorem claimC8_braking_oneshot_witness :
    (brakingStep (pulsePhase brakingState ⟨0, false, 0, none⟩)).actuatorPosition = 70 ∧
    (brakingStep (pulsePhase brakingState ⟨0, false, 0, none⟩)).servo = 70 ∧
    (loopIter brakingState ⟨0, false, 0, none⟩).braking = false ∧
    (loopIter brakingState ⟨0, false, 0, none⟩).estopEngaged = false ∧
    (70 : ℤ) ≠ actuatorMax :=
  claimC8_braking_oneshot brakingState ⟨0, false, 0, none⟩ rfl

/-- Claim C9.  The monitor computes
`Vload = (reading / 1024 * 5) / 0.3125` as the claim says, but the
stored threshold is 11, not approximately 11.90: the `int` declaration
truncates the initializer.  At ADC reading 736 (`Vload = 11.5`) the code
yields `loadConnected = false`, while 11.5 is below the written 11.90
threshold. -/
theorem claimC9_threshold_truncated :
    loadThreshold = 11 ∧ loadThresholdInit = 119 / 10 ∧
    Vload 736 = 23 / 2 ∧ loadConnected 736 = false ∧ Vload 736 < loadThresholdInit := by
  norm_num [loadThreshold, loadThresholdInit, loadConnected, Vload, Vmeasured]

/-- Claim C10, counterexample.  A 34286-microsecond interval does not
correspond to exactly 1750 RPM: `60000000 / 34286` is strictly below
1750, and after ten accepted samples of that interval the smoothed RPM
is not `1750.0`. -/
theorem claimC10_counterexample :
    instantRPM 34286 ≠ 1750 ∧ instantRPM 34286 < maxShaftRPM ∧
    ((feedPulse 34286)^[10] initState).rpm ≠ 1750 := by
  refine ⟨by norm_num [instantRPM], by norm_num [instantRPM, maxShaftRPM], ?_⟩
  rw [reach10.2.2]
  norm_num [instantRPM]

/-- Claim C10, amended.  Feeding only the 34286-microsecond interval for
at least ten accepted samples yields a smoothed RPM of exactly
`60000000 / 34286` (about 1749.99, slightly below 1750 and not
`1750.0`), which never takes the overspeed branch; the branch fires only
above `maxShaftRPM`, not at it. -/
theorem claimC10_amended_steady_feed (n : ℕ) (hn : 10 ≤ n) :
    ((feedPulse 34286)^[n] initState).rpm = instantRPM 34286 ∧
    instantRPM 34286 < maxShaftRPM ∧
    overspeedBranch ((feedPulse 34286)^[n] initState) = false := by
  obtain ⟨-, -, hr⟩ := steady_from_ten n hn
  refine ⟨hr, by norm_num [instantRPM, maxShaftRPM], ?_⟩
  rw [overspeedBranch, hr]
  rw [decide_eq_false_iff_not]
  norm_num [instantRPM, maxShaftRPM]

/-- Claim C10, witness: the amended statement at exactly ten samples. -/
theorem claimC10_amended_steady_feed_witness :
    ((feedPulse 34286)^[10] initState).rpm = instantRPM 34286 ∧
    instantRPM 34286 < maxShaftRPM ∧
    overspeedBranch ((feedPulse 34286)^[10] initState) = false :=
  claimC10_amended_steady_feed 10 (by norm_num)

end WESO
